import Mathlib

/-!
Verification development for the fall-detection service
(`ai-service/model_service.py`, `ai-service/main.py`, `ai-service/database.py`).

Text handled by the service (decoded model answers) is embedded as lists of
natural-number character codes; Python `str` operations used by the code are
modelled on those lists for the ASCII range, which is the only range the
tokens "yes"/"no" and the code's comparisons touch.
-/

namespace FallDetection

/-! ## Model of the answer text pipeline (`model_service.py`, lines 98-110) -/

/-- ASCII whitespace test, modelling the characters removed by Python
`str.strip()` (space and the control characters TAB..CR). -/
def isPySpace (c : Nat) : Bool := c == 32 || (9 ≤ c && c ≤ 13)

/-- Models Python `str.strip()`: drop whitespace from both ends. -/
def pyStrip (l : List Nat) : List Nat :=
  ((l.dropWhile isPySpace).reverse.dropWhile isPySpace).reverse

/-- Models Python `str.lower()` on one character (ASCII range). -/
def toLowerCh (c : Nat) : Nat := if 65 ≤ c ∧ c ≤ 90 then c + 32 else c

/-- Models Python `str.upper()` on one character (ASCII range). -/
def toUpperCh (c : Nat) : Nat := if 97 ≤ c ∧ c ≤ 122 then c - 32 else c

/-- Models Python `str.capitalize()`: first character upper-cased, the rest
lower-cased. -/
def pyCapitalize : List Nat → List Nat
  | [] => []
  | c :: cs => toUpperCh c :: cs.map toLowerCh

/-- `startsWithTok p l` models Python `l.startswith(p)`. -/
def startsWithTok : List Nat → List Nat → Bool
  | [], _ => true
  | _ :: _, [] => false
  | a :: as, b :: bs => a == b && startsWithTok as bs

/-- `containsTok p l` models Python `p in l` (contiguous substring test). -/
def containsTok (p : List Nat) : List Nat → Bool
  | [] => startsWithTok p []
  | c :: rest => startsWithTok p (c :: rest) || containsTok p rest

/-- Character codes of the lowercase token `"yes"`. -/
def yesTok : List Nat := [121, 101, 115]

/-- Character codes of the lowercase token `"no"`. -/
def noTok : List Nat := [110, 111]

/-- Character codes of the returned string `"Yes"`. -/
def yesCodes : List Nat := [89, 101, 115]

/-- Character codes of the returned string `"No"`. -/
def noCodes : List Nat := [78, 111]

/-- Models line 98 of `model_service.py`: the decoded answer is stripped and
lower-cased before interpretation (`.strip().lower()`). -/
def normText (raw : List Nat) : List Nat := (pyStrip raw).map toLowerCh

/-- Models the answer interpretation of `ModelService._ask_yes_no`
(`model_service.py`, lines 98-110): the decoded text is stripped and
lower-cased, then matched in order against prefix and containment checks for
the tokens "yes" and "no"; an empty remainder yields "No" and any other
remainder is returned capitalized. -/
def interpretAnswer (raw : List Nat) : List Nat :=
  let text := normText raw
  if startsWithTok yesTok text then yesCodes
  else if startsWithTok noTok text then noCodes
  else if containsTok yesTok text && !containsTok noTok text then yesCodes
  else if containsTok noTok text then noCodes
  else if text = [] then noCodes
  else pyCapitalize text

/-! ## Images and crops (`model_service.py`, lines 112-129) -/

/-- An input image: either a base image with its pixel dimensions, or a PIL
`Image.crop((l, t, r, b))` sub-view of a parent image.  Pixel contents are
abstracted away; the inference capability below is an oracle over `Img`. -/
inductive Img where
  | base (w h : Nat)
  | cropped (parent : Img) (l t r b : Nat)
deriving DecidableEq, Repr

/-- Models PIL `Image.size`: `(width, height)`; a crop `(l, t, r, b)` has size
`(r - l, b - t)`. -/
def Img.size : Img → Nat × Nat
  | .base w h => (w, h)
  | .cropped _ l t r b => (r - l, b - t)

/-- Models `ModelService._make_crops` (`model_service.py`, lines 112-129):
the original image, the centered square of side `min w h`, and a centered
square of side `int(m * 0.8)`.  `int(m * 0.8)` is modelled as `4 * m / 5` in
natural-number division, which coincides with the Python float computation for
every pixel dimension below `2 ^ 49`.  All coordinates are nonnegative, so
Python's `max(0, ...)` and floor division agree with the `Nat` operations
used here. -/
def makeCrops (image : Img) : List Img :=
  let w := image.size.1
  let h := image.size.2
  let m := min w h
  let l := (w - m) / 2
  let t := (h - m) / 2
  let s := 4 * m / 5
  let l2 := max 0 ((w - s) / 2)
  let t2 := max 0 ((h - s) / 2)
  [image, Img.cropped image l t (l + m) (t + m),
    Img.cropped image l2 t2 (l2 + s) (t2 + s)]

/-! ## Ensemble classifier (`model_service.py`, lines 131-173) -/

/-- The opaque inference capability: given an image (crop) and a question, it
returns the decoded raw answer text.  The spec treats the model's internals as
an external collaborator, so it is a parameter of the classifier. -/
abbrev Oracle : Type := Img → String → List Nat

/-- The stage-1 question of `ModelService.detect_fall` (line 146). -/
def qPerson : String := "Is there a person visible in this image? Answer Yes or No."

/-- The stage-2 question of `ModelService.detect_fall` (line 151). -/
def qFall : String := "Is any person lying on the ground or floor (appears fallen)? Answer Yes or No."

/-- The vote of one crop (`model_service.py`, lines 144-159): stage 1 asks
whether a person is visible; only if that interpreted answer is `"Yes"` does
stage 2 ask whether the person is fallen, and the crop votes positive exactly
when that answer is also `"Yes"`. -/
def cropVote (o : Oracle) (img : Img) : Bool :=
  if interpretAnswer (o img qPerson) = yesCodes then
    decide (interpretAnswer (o img qFall) = yesCodes)
  else false

/-- Python `round(x, 3)` on the confidence value, modelled over `ℚ`:
round `q * 1000` to the nearest integer and divide by `1000`.  At every value
the classifier can produce (`1/3`, `2/3`, `1`) no rounding tie occurs, so the
tie-breaking convention is irrelevant. -/
def round3 (q : ℚ) : ℚ := (round (q * 1000) : ℚ) / 1000

/-- The dictionary returned by `ModelService.detect_fall`
(`model_service.py`, lines 169-173). -/
structure FallResult where
  result : List Nat
  confidence : ℚ
  yes_votes : Nat
  no_votes : Nat
  total_crops : Nat
deriving DecidableEq, Repr

/-- One step of the voting loop of `ModelService.detect_fall`
(lines 144-159): the accumulator is `(yes_votes, no_votes)`. -/
def voteStep (o : Oracle) (acc : Nat × Nat) (img : Img) : Nat × Nat :=
  if cropVote o img then (acc.1 + 1, acc.2) else (acc.1, acc.2 + 1)

/-- Models `ModelService.detect_fall` (`model_service.py`, lines 131-173):
derive the crops, tally one vote per crop through the two-stage question
sequence, decide `"Yes"` iff `yes_votes > no_votes`, and report
`round(max(yes_votes, no_votes) / len(crops), 3)` as the confidence.
Wall-clock timing, the GPU cache flush and the asyncio lock are excluded
collaborators; the readiness guard is enforced by the orchestrator below. -/
def detect_fall (o : Oracle) (image : Img) : FallResult :=
  let crops := makeCrops image
  let tally := crops.foldl (voteStep o) (0, 0)
  let yes_votes := tally.1
  let no_votes := tally.2
  let final_result := if yes_votes > no_votes then yesCodes else noCodes
  let confidence : ℚ := (max yes_votes no_votes : ℚ) / (crops.length : ℚ)
  { result := final_result
    confidence := round3 confidence
    yes_votes := yes_votes
    no_votes := no_votes
    total_crops := crops.length }

/-! ## SHA-256 fingerprint (`database.py`, lines 57-59)

`DatabaseManager.calculate_image_hash` is `hashlib.sha256(image_bytes).hexdigest()`.
The hash is embedded in full (FIPS 180-4) over byte lists, with 32-bit words
as naturals reduced modulo `2 ^ 32`. -/

/-- Reduce to a 32-bit word. -/
def w32 (n : Nat) : Nat := n % 4294967296

/-- 32-bit right rotation (argument assumed `< 2 ^ 32`). -/
def rotr (x n : Nat) : Nat := w32 ((x >>> n) ||| (x <<< (32 - n)))

/-- SHA-256 big sigma-0. -/
def bSig0 (x : Nat) : Nat := rotr x 2 ^^^ rotr x 13 ^^^ rotr x 22

/-- SHA-256 big sigma-1. -/
def bSig1 (x : Nat) : Nat := rotr x 6 ^^^ rotr x 11 ^^^ rotr x 25

/-- SHA-256 small sigma-0. -/
def sSig0 (x : Nat) : Nat := rotr x 7 ^^^ rotr x 18 ^^^ (x >>> 3)

/-- SHA-256 small sigma-1. -/
def sSig1 (x : Nat) : Nat := rotr x 17 ^^^ rotr x 19 ^^^ (x >>> 10)

/-- The 64 SHA-256 round constants of FIPS 180-4, in decimal. -/
def sha256K : List Nat :=
  [1116352408, 1899447441, 3049323471, 3921009573, 961987163, 1508970993,
   2453635748, 2870763221, 3624381080, 310598401, 607225278, 1426881987,
   1925078388, 2162078206, 2614888103, 3248222580, 3835390401, 4022224774,
   264347078, 604807628, 770255983, 1249150122, 1555081692, 1996064986,
   2554220882, 2821834349, 2952996808, 3210313671, 3336571891, 3584528711,
   113926993, 338241895, 666307205, 773529912, 1294757372, 1396182291,
   1695183700, 1986661051, 2177026350, 2456956037, 2730485921, 2820302411,
   3259730800, 3345764771, 3516065817, 3600352804, 4094571909, 275423344,
   430227734, 506948616, 659060556, 883997877, 958139571, 1322822218,
   1537002063, 1747873779, 1955562222, 2024104815, 2227730452, 2361852424,
   2428436474, 2756734187, 3204031479, 3329325298]

/-- The SHA-256 working state: eight 32-bit words. -/
abbrev Sha8 : Type := Nat × Nat × Nat × Nat × Nat × Nat × Nat × Nat

/-- The SHA-256 initial hash value of FIPS 180-4, in decimal. -/
def sha256Init : Sha8 :=
  (1779033703, 3144134277, 1013904242, 2773480762,
   1359893119, 2600822924, 528734635, 1541459225)

/-- The 64-bit big-endian length field of the SHA-256 padding. -/
def beBytes8 (n : Nat) : List Nat :=
  [(n >>> 56) &&& 255, (n >>> 48) &&& 255, (n >>> 40) &&& 255, (n >>> 32) &&& 255,
   (n >>> 24) &&& 255, (n >>> 16) &&& 255, (n >>> 8) &&& 255, n &&& 255]

/-- SHA-256 padding: append `0x80`, zero bytes up to 56 mod 64, and the
bit length. -/
def padMessage (msg : List Nat) : List Nat :=
  let L := msg.length
  msg ++ [0x80] ++ List.replicate ((64 - (L + 9) % 64) % 64) 0 ++ beBytes8 (8 * L)

/-- Group bytes into big-endian 32-bit words. -/
def bytesToWords : List Nat → List Nat
  | b0 :: b1 :: b2 :: b3 :: rest =>
      ((((b0 <<< 8) ||| b1) <<< 8 ||| b2) <<< 8 ||| b3) :: bytesToWords rest
  | _ => []

/-- Group 32-bit words into 16-word blocks. -/
def wordsToBlocks : List Nat → List (List Nat)
  | w0 :: w1 :: w2 :: w3 :: w4 :: w5 :: w6 :: w7 ::
    w8 :: w9 :: w10 :: w11 :: w12 :: w13 :: w14 :: w15 :: rest =>
      [w0, w1, w2, w3, w4, w5, w6, w7, w8, w9, w10, w11, w12, w13, w14, w15] ::
        wordsToBlocks rest
  | _ => []

/-- One message-schedule extension step: append
`sSig1 w[n-2] + w[n-7] + sSig0 w[n-15] + w[n-16]` modulo `2 ^ 32`. -/
def scheduleStep (ws : List Nat) : List Nat :=
  let n := ws.length
  ws ++ [w32 (sSig1 (ws.getD (n - 2) 0) + ws.getD (n - 7) 0 +
              sSig0 (ws.getD (n - 15) 0) + ws.getD (n - 16) 0)]

/-- Extend a 16-word block by `n` schedule steps. -/
def buildSchedule : Nat → List Nat → List Nat
  | 0, ws => ws
  | n + 1, ws => buildSchedule n (scheduleStep ws)

/-- One SHA-256 compression round with round constant `k` and schedule
word `w`. -/
def roundStep (st : Sha8) (k w : Nat) : Sha8 :=
  let (a, b, c, d, e, f, g, h) := st
  let ch := (e &&& f) ^^^ ((e ^^^ 0xffffffff) &&& g)
  let maj := (a &&& b) ^^^ (a &&& c) ^^^ (b &&& c)
  let t1 := w32 (h + bSig1 e + ch + k + w)
  let t2 := w32 (bSig0 a + maj)
  (w32 (t1 + t2), a, b, c, w32 (d + t1), e, f, g)

/-- Run the 64 compression rounds over paired constants and schedule words. -/
def compressRounds : List Nat → List Nat → Sha8 → Sha8
  | k :: ks, w :: ws, st => compressRounds ks ws (roundStep st k w)
  | _, _, st => st

/-- Add two working states word-wise modulo `2 ^ 32`. -/
def add8 (x y : Sha8) : Sha8 :=
  (w32 (x.1 + y.1), w32 (x.2.1 + y.2.1), w32 (x.2.2.1 + y.2.2.1),
   w32 (x.2.2.2.1 + y.2.2.2.1), w32 (x.2.2.2.2.1 + y.2.2.2.2.1),
   w32 (x.2.2.2.2.2.1 + y.2.2.2.2.2.1), w32 (x.2.2.2.2.2.2.1 + y.2.2.2.2.2.2.1),
   w32 (x.2.2.2.2.2.2.2 + y.2.2.2.2.2.2.2))

/-- Compress one 16-word block into the running state. -/
def compressBlock (st : Sha8) (block : List Nat) : Sha8 :=
  add8 st (compressRounds sha256K (buildSchedule 48 block) st)

/-- The eight final SHA-256 state words of a byte message. -/
def sha256Words (msg : List Nat) : Sha8 :=
  (wordsToBlocks (bytesToWords (padMessage msg))).foldl compressBlock sha256Init

/-- Lowercase hexadecimal digit character. -/
def hexDigit (n : Nat) : Char := if n < 10 then Char.ofNat (48 + n) else Char.ofNat (87 + n)

/-- Eight hex characters of a 32-bit word, most significant first. -/
def toHex8 (x : Nat) : List Char :=
  [hexDigit (x / 268435456 % 16), hexDigit (x / 16777216 % 16),
   hexDigit (x / 1048576 % 16), hexDigit (x / 65536 % 16),
   hexDigit (x / 4096 % 16), hexDigit (x / 256 % 16),
   hexDigit (x / 16 % 16), hexDigit (x % 16)]

/-- Models `DatabaseManager.calculate_image_hash` (`database.py`, lines 57-59):
`hashlib.sha256(image_bytes).hexdigest()`, the 64-character lowercase
hexadecimal SHA-256 digest of the raw input bytes. -/
def calculate_image_hash (image_bytes : List Nat) : String :=
  let st := sha256Words image_bytes
  String.mk (toHex8 st.1 ++ toHex8 st.2.1 ++ toHex8 st.2.2.1 ++ toHex8 st.2.2.2.1 ++
    toHex8 st.2.2.2.2.1 ++ toHex8 st.2.2.2.2.2.1 ++ toHex8 st.2.2.2.2.2.2.1 ++
    toHex8 st.2.2.2.2.2.2.2)

/-! ## Persistent store (`database.py`) -/

/-- One row of the `fall_detections` table, as used by the orchestrator
(`database.py`, lines 40-48).  The auto-increment id and the database-assigned
`created_at` timestamp are excluded collaborators (connection management and
real time are out of scope). -/
structure Entry where
  image_hash : String
  result : List Nat
  confidence : ℚ
  image_size : String
  processing_time_ms : Nat
deriving DecidableEq, Repr

/-- The table contents: rows in insertion order.  The `image_hash` column
carries a uniqueness constraint, maintained by the insert below. -/
abbrev Store : Type := List (String × Entry)

/-- Models `DatabaseManager.check_existing_result` (`database.py`,
lines 61-81): `SELECT ... WHERE image_hash = $1` against the unique hash
column; `none` when no row exists. -/
def lookupStore (store : Store) (h : String) : Option Entry :=
  match store with
  | [] => none
  | (k, e) :: rest => if k = h then some e else lookupStore rest h

/-- Number of rows whose `image_hash` column equals `k`. -/
def countKey (store : Store) (k : String) : Nat :=
  (store.filter (fun p => p.1 = k)).length

/-- Models `DatabaseManager.save_result` (`database.py`, lines 83-98):
`INSERT ... ON CONFLICT (image_hash) DO NOTHING`, with every exception caught
inside the method.  `dbUp` models storage availability: when the storage layer
raises, the method logs and returns `false`; otherwise the statement inserts
the row only if the hash is absent and the method returns `true` whether or
not a row was created. -/
def save_result (dbUp : Bool) (store : Store) (h : String) (e : Entry) :
    Bool × Store :=
  if dbUp = false then (false, store)
  else
    match lookupStore store h with
    | some _ => (true, store)
    | none => (true, store ++ [(h, e)])

/-! ## Orchestrator (`main.py`, lines 102-158) -/

/-- The decoder capability: `Image.open(io.BytesIO(bytes)).convert("RGB")`,
abstracted to a function from the raw bytes to the decoded dimensions, or
`none` when the bytes are not a decodable image (in which case `Image.open`
raises and the orchestrator's `except` clause answers HTTP 500). -/
abbrev DecodeFn : Type := List Nat → Option (Nat × Nat)

/-- An uploaded file as the endpoint sees it: the declared content type
(reduced to whether it starts with `"image/"`, the only test the code makes)
and the raw bytes. -/
structure Request where
  contentTypeIsImage : Bool
  bytes : List Nat
deriving DecidableEq, Repr

/-- The observable outcome of `detect_fall_single`: the JSON body of a 200
response, or one of the error statuses the endpoint can produce
(503 model-loading, 400 non-image content type, 500 processing failure). -/
inductive Response where
  | ok (image_hash : String) (result : List Nat) (confidence : ℚ)
      (image_size : String) (processing_time_ms : Nat) (cached : Bool)
  | resourceNotReady
  | invalidInput
  | processingError
deriving DecidableEq, Repr

/-- The shared mutable state visible to one request: readiness of the model
service, the database table, storage availability, and an instrumentation
counter of `ModelService.detect_fall` invocations (the gate-protected
classification calls). -/
structure SysState where
  ready : Bool
  store : Store
  dbUp : Bool
  classifierCalls : Nat
deriving DecidableEq, Repr

/-- The `f"{image.size[0]}x{image.size[1]}"` string of `main.py`, line 128. -/
def sizeString (w h : Nat) : String := toString w ++ "x" ++ toString h

/-- Models the `detect_fall_single` endpoint (`main.py`, lines 102-158):
readiness check, content-type validation, fingerprint, cache lookup with
early cached return, decode, gated classification, timing (modelled as 0 ms —
real time is an excluded collaborator), best-effort insert whose boolean
result is ignored, and the fresh response with `cached: false`.  The
`except` clause converts the decode failure into HTTP 500. -/
def detect_fall_single (d : DecodeFn) (o : Oracle) (s : SysState)
    (req : Request) : Response × SysState :=
  if s.ready = false then (Response.resourceNotReady, s)
  else if req.contentTypeIsImage = false then (Response.invalidInput, s)
  else
    let image_hash := calculate_image_hash req.bytes
    match lookupStore s.store image_hash with
    | some e =>
        (Response.ok e.image_hash e.result e.confidence e.image_size
          e.processing_time_ms true, s)
    | none =>
      match d req.bytes with
      | none => (Response.processingError, s)
      | some wh =>
        let r := detect_fall o (Img.base wh.1 wh.2)
        let sz := sizeString wh.1 wh.2
        let s1 : SysState := { s with classifierCalls := s.classifierCalls + 1 }
        let ins := save_result s1.dbUp s1.store image_hash
          { image_hash := image_hash, result := r.result,
            confidence := r.confidence, image_size := sz,
            processing_time_ms := 0 }
        (Response.ok image_hash r.result r.confidence sz 0 false,
         { s1 with store := ins.2 })

/-! ## Spec-side definitions for refinement comparisons -/

/-- Modelled from the spec: `fingerprint(bytes)` is claimed to "fail only on
empty/null input (InvalidInput)".  This is the claimed contract — an explicit
failure on the empty byte sequence — stated for comparison with the code's
`calculate_image_hash`, which is total. -/
def fingerprintSpec (b : List Nat) : Option String :=
  if b = [] then none else some (calculate_image_hash b)

/-- Modelled from the spec: `insert(fingerprint, entry) -> bool` is claimed to
return "whether this call created it".  Stated for comparison with the code's
`save_result`, which returns `true` whenever the storage layer raised no
error. -/
def save_result_spec (store : Store) (h : String) (e : Entry) : Bool × Store :=
  match lookupStore store h with
  | some _ => (false, store)
  | none => (true, store ++ [(h, e)])

/-! ## Concrete instances used for demonstrations -/

/-- A decoder for demonstrations: every byte payload decodes to a 5-by-5
image. -/
def demoDecode : DecodeFn := fun _ => some (5, 5)

/-- A decoder on which every byte payload fails to decode (malformed
non-image bytes). -/
def noneDecode : DecodeFn := fun _ => none

/-- An oracle for demonstrations: the model answers with empty text, which
normalizes to a Negative vote on every crop. -/
def demoOracle : Oracle := fun _ _ => []

/-- The cache entry produced by classifying the empty byte payload with
`demoDecode` and `demoOracle`. -/
def demoEntry : Entry :=
  { image_hash := calculate_image_hash [], result := noCodes, confidence := 1,
    image_size := "5x5", processing_time_ms := 0 }

/-- A plain stored entry under the key `"f"`. -/
def plainEntry : Entry :=
  { image_hash := "f", result := noCodes, confidence := 1,
    image_size := "2x2", processing_time_ms := 1 }

/-- A second, different entry for the same key `"f"`. -/
def plainEntry2 : Entry :=
  { image_hash := "f", result := yesCodes, confidence := 667 / 1000,
    image_size := "3x3", processing_time_ms := 5 }

/-- A store already holding an entry for the key `"f"`. -/
def demoStore : Store := [("f", plainEntry)]

/-- A fresh system state: model ready, empty cache, storage up. -/
def freshState : SysState :=
  { ready := true, store := [], dbUp := true, classifierCalls := 0 }

/-- A state whose model is still loading while the cache already holds the
entry for the empty payload. -/
def c6State : SysState :=
  { ready := false, store := [(calculate_image_hash [], demoEntry)],
    dbUp := true, classifierCalls := 0 }

/-- A ready state whose storage layer is unavailable. -/
def dbDownState : SysState :=
  { ready := true, store := [], dbUp := false, classifierCalls := 0 }

/-- A request carrying the empty byte payload with an image content type. -/
def emptyImageReq : Request := { contentTypeIsImage := true, bytes := [] }

/-- A request with an image content type whose bytes are not a decodable
image. -/
def badBytesReq : Request := { contentTypeIsImage := true, bytes := [0] }

/-- The entry created by a fresh classification of the empty payload. -/
def demoFreshEntry : Entry :=
  { image_hash := calculate_image_hash emptyImageReq.bytes,
    result := (detect_fall demoOracle (Img.base 5 5)).result,
    confidence := (detect_fall demoOracle (Img.base 5 5)).confidence,
    image_size := sizeString 5 5,
    processing_time_ms := 0 }

/-- The state reached after that fresh classification. -/
def demoState1 : SysState :=
  { ready := true,
    store := [(calculate_image_hash emptyImageReq.bytes, demoFreshEntry)],
    dbUp := true, classifierCalls := 1 }

/-! ## Helper lemmas -/

/-- The length of a string built from an explicit character list. -/
theorem length_mk (l : List Char) : (String.mk l).length = l.length := rfl

/-- A hex-encoded 32-bit word always has eight characters. -/
theorem toHex8_length (x : Nat) : (toHex8 x).length = 8 := rfl

/-- Appending a new entry behind a store that misses a key makes lookup of
that key find the new entry. -/
theorem lookupStore_append_self (store : Store) (hsh : String) (e : Entry)
    (hmiss : lookupStore store hsh = none) :
    lookupStore (store ++ [(hsh, e)]) hsh = some e := by
  induction store with
  | nil => simp [lookupStore]
  | cons p rest ih =>
    obtain ⟨k, e0⟩ := p
    by_cases hk : k = hsh
    · simp only [lookupStore, if_pos hk] at hmiss
      cases hmiss
    · simp only [List.cons_append, lookupStore, if_neg hk] at hmiss ⊢
      exact ih hmiss

/-- A key is absent exactly when no row carries it. -/
theorem lookupStore_none_iff (store : Store) (k : String) :
    lookupStore store k = none ↔ countKey store k = 0 := by
  induction store with
  | nil => simp [lookupStore, countKey]
  | cons p rest ih =>
    obtain ⟨k0, e0⟩ := p
    by_cases hk : k0 = k
    · simp [lookupStore, countKey, List.filter_cons, hk]
    · simp only [lookupStore, if_neg hk, ih, countKey, List.filter_cons]
      simp [hk]

/-- Row counts add over store concatenation. -/
theorem countKey_append (s1 s2 : Store) (k : String) :
    countKey (s1 ++ s2) k = countKey s1 k + countKey s2 k := by
  simp [countKey, List.filter_append]

/-- Row count of a one-row store. -/
theorem countKey_singleton (hsh k : String) (e : Entry) :
    countKey [(hsh, e)] k = if hsh = k then 1 else 0 := by
  by_cases hk : hsh = k <;> simp [countKey, List.filter_cons, hk]

/-- `detect_fall_single` on a not-yet-initialized model answers 503
immediately. -/
theorem detect_fall_single_not_ready (d : DecodeFn) (o : Oracle)
    (s : SysState) (req : Request) (hready : s.ready = false) :
    detect_fall_single d o s req = (Response.resourceNotReady, s) := by
  simp [detect_fall_single, hready]

/-- `detect_fall_single` on a ready model and a non-image content type
answers 400. -/
theorem detect_fall_single_bad_type (d : DecodeFn) (o : Oracle)
    (s : SysState) (req : Request) (hready : s.ready = true)
    (hct : req.contentTypeIsImage = false) :
    detect_fall_single d o s req = (Response.invalidInput, s) := by
  simp [detect_fall_single, hready, hct]

/-- `detect_fall_single` on a cache hit returns the stored entry with the
cached flag set, leaving the state untouched. -/
theorem detect_fall_single_hit (d : DecodeFn) (o : Oracle) (s : SysState)
    (req : Request) (e : Entry) (hready : s.ready = true)
    (hct : req.contentTypeIsImage = true)
    (hhit : lookupStore s.store (calculate_image_hash req.bytes) = some e) :
    detect_fall_single d o s req =
      (Response.ok e.image_hash e.result e.confidence e.image_size
        e.processing_time_ms true, s) := by
  simp [detect_fall_single, hready, hct, hhit]

/-- `detect_fall_single` on a cache miss with undecodable bytes answers 500,
leaving the state untouched. -/
theorem detect_fall_single_err (d : DecodeFn) (o : Oracle) (s : SysState)
    (req : Request) (hready : s.ready = true)
    (hct : req.contentTypeIsImage = true)
    (hmiss : lookupStore s.store (calculate_image_hash req.bytes) = none)
    (hdec : d req.bytes = none) :
    detect_fall_single d o s req = (Response.processingError, s) := by
  simp [detect_fall_single, hready, hct, hmiss, hdec]

/-- `detect_fall_single` on a cache miss with decodable bytes classifies the
image, attempts the insert, and returns the fresh result uncached. -/
theorem detect_fall_single_fresh (d : DecodeFn) (o : Oracle) (s : SysState)
    (req : Request) (wh : Nat × Nat) (hready : s.ready = true)
    (hct : req.contentTypeIsImage = true)
    (hmiss : lookupStore s.store (calculate_image_hash req.bytes) = none)
    (hdec : d req.bytes = some wh) :
    detect_fall_single d o s req =
      (Response.ok (calculate_image_hash req.bytes)
        (detect_fall o (Img.base wh.1 wh.2)).result
        (detect_fall o (Img.base wh.1 wh.2)).confidence
        (sizeString wh.1 wh.2) 0 false,
       { s with
         classifierCalls := s.classifierCalls + 1,
         store := (save_result s.dbUp s.store (calculate_image_hash req.bytes)
           { image_hash := calculate_image_hash req.bytes,
             result := (detect_fall o (Img.base wh.1 wh.2)).result,
             confidence := (detect_fall o (Img.base wh.1 wh.2)).confidence,
             image_size := sizeString wh.1 wh.2,
             processing_time_ms := 0 }).2 }) := by
  simp [detect_fall_single, hready, hct, hmiss, hdec]

/-- With storage up, inserting under an absent key appends the row and
reports success. -/
theorem save_result_absent (store : Store) (hsh : String) (e : Entry)
    (hmiss : lookupStore store hsh = none) :
    save_result true store hsh e = (true, store ++ [(hsh, e)]) := by
  simp [save_result, hmiss]

/-- With storage up, inserting under a key that already has a row leaves the
store unchanged and still reports success (`ON CONFLICT DO NOTHING`). -/
theorem save_result_present (store : Store) (hsh : String) (e0 e : Entry)
    (hhit : lookupStore store hsh = some e0) :
    save_result true store hsh e = (true, store) := by
  simp [save_result, hhit]

/-- With storage down, the insert reports failure and changes nothing. -/
theorem save_result_down (store : Store) (hsh : String) (e : Entry) :
    save_result false store hsh e = (false, store) := by
  simp [save_result]

/-- Every crop processed by the voting loop adds exactly one vote to the
tally: the two counters grow by the length of the crop list. -/
theorem foldl_voteStep_sum (o : Oracle) (l : List Img) (a b : Nat) :
    ((l.foldl (voteStep o) (a, b)).1 + (l.foldl (voteStep o) (a, b)).2) =
      a + b + l.length := by
  induction l generalizing a b with
  | nil => simp
  | cons x xs ih =>
    cases hx : cropVote o x <;> simp [List.foldl_cons, voteStep, hx] <;>
      rw [ih] <;> omega

/-- `_make_crops` always returns a three-element list. -/
theorem makeCrops_length (img : Img) : (makeCrops img).length = 3 := rfl

/-- Rounding `2/3` to three decimal places gives `0.667`. -/
theorem round3_two_thirds : round3 (2 / 3) = 667 / 1000 := by
  have h : round ((2 / 3 : ℚ) * 1000) = 667 := by
    rw [round_eq, show (2 / 3 : ℚ) * 1000 + 1 / 2 = 4003 / 6 by norm_num]
    rw [Int.floor_eq_iff]
    norm_num
  rw [round3, h]
  norm_num

/-- Rounding `1` to three decimal places gives `1`. -/
theorem round3_one : round3 1 = 1 := by
  have h : round ((1 : ℚ) * 1000) = 1000 := by
    rw [round_eq, show (1 : ℚ) * 1000 + 1 / 2 = 2001 / 2 by norm_num]
    rw [Int.floor_eq_iff]
    norm_num
  rw [round3, h]
  norm_num

/-- Rounding `1/3` to three decimal places gives `0.333`. -/
theorem round3_one_third : round3 (1 / 3) = 333 / 1000 := by
  have h : round ((1 / 3 : ℚ) * 1000) = 333 := by
    rw [round_eq, show (1 / 3 : ℚ) * 1000 + 1 / 2 = 2003 / 6 by norm_num]
    rw [Int.floor_eq_iff]
    norm_num
  rw [round3, h]
  norm_num

/-- The projections of `detect_fall`, written out over the vote tally. -/
theorem detect_fall_proj (o : Oracle) (img : Img) :
    (detect_fall o img).yes_votes = ((makeCrops img).foldl (voteStep o) (0, 0)).1 ∧
    (detect_fall o img).no_votes = ((makeCrops img).foldl (voteStep o) (0, 0)).2 ∧
    (detect_fall o img).total_crops = 3 ∧
    (detect_fall o img).result =
      (if ((makeCrops img).foldl (voteStep o) (0, 0)).2 <
          ((makeCrops img).foldl (voteStep o) (0, 0)).1 then yesCodes else noCodes) ∧
    (detect_fall o img).confidence =
      round3 ((max (((makeCrops img).foldl (voteStep o) (0, 0)).1)
        (((makeCrops img).foldl (voteStep o) (0, 0)).2) : ℚ) / 3) := by
  refine ⟨rfl, rfl, makeCrops_length img, rfl, ?_⟩
  show round3 _ = round3 _
  rw [makeCrops_length]
  norm_num

/-- The winning vote count of a three-vote tally is `2` or `3`. -/
theorem max_votes_cases (y n : Nat) (hsum : y + n = 3) :
    max y n = 2 ∨ max y n = 3 := by
  rcases le_total y n with h | h
  · rw [Nat.max_eq_right h]; omega
  · rw [Nat.max_eq_left h]; omega

/-- The two vote counters of one classification call sum to `3`. -/
theorem detect_fall_votes_sum (o : Oracle) (img : Img) :
    (detect_fall o img).yes_votes + (detect_fall o img).no_votes = 3 := by
  obtain ⟨hy, hn, -, -, -⟩ := detect_fall_proj o img
  rw [hy, hn, foldl_voteStep_sum, makeCrops_length]

/-- ASCII lower-casing never produces the code of an uppercase letter such as
`'Y' = 89`. -/
theorem toLowerCh_ne_89 (x : Nat) : toLowerCh x ≠ 89 := by
  unfold toLowerCh
  split <;> omega

/-- ASCII lower-casing is idempotent. -/
theorem toLowerCh_idem (x : Nat) : toLowerCh (toLowerCh x) = toLowerCh x := by
  by_cases h : 65 ≤ x ∧ x ≤ 90
  · have h1 : toLowerCh x = x + 32 := by rw [toLowerCh, if_pos h]
    rw [h1, toLowerCh, if_neg (by omega)]
  · have h1 : toLowerCh x = x := by rw [toLowerCh, if_neg h]
    rw [h1]
    exact h1

/-- Lower-casing an already lower-cased character list changes nothing. -/
theorem map_toLowerCh_idem (l : List Nat) :
    (l.map toLowerCh).map toLowerCh = l.map toLowerCh := by
  induction l with
  | nil => rfl
  | cons a as ih => simp [toLowerCh_idem, ih]

/-- The capitalized fallback of `_ask_yes_no` can never spell `"Yes"`:
the stripped, lower-cased text would have to be exactly `"yes"`, which the
first prefix check would already have caught. -/
theorem pyCapitalize_normText_ne_yes (raw : List Nat)
    (h1 : startsWithTok yesTok (normText raw) = false) :
    pyCapitalize (normText raw) ≠ yesCodes := by
  intro hcontra
  cases hps : pyStrip raw with
  | nil =>
    rw [normText, hps] at hcontra
    simp [pyCapitalize, yesCodes] at hcontra
  | cons x xs =>
    rw [normText, hps, List.map_cons] at hcontra h1
    rw [pyCapitalize, yesCodes] at hcontra
    obtain ⟨hhead, htail⟩ := List.cons.inj hcontra
    have hx : toLowerCh x = 121 := by
      have h89 := toLowerCh_ne_89 x
      unfold toUpperCh at hhead
      split at hhead <;> omega
    rw [map_toLowerCh_idem] at htail
    rw [hx, htail] at h1
    simp [startsWithTok, yesTok] at h1

/-! ## Claims -/

/-- C1: for every classification call, the final verdict is `"Yes"` iff
`yes_votes > no_votes`; the returned confidence equals
`max(yes_votes, no_votes) / total_crops` rounded to three decimal places; and
for the fixed 3-crop pipeline the (unrounded) winning-vote fraction lies in
`{1/3, 2/3, 1}`. -/
theorem detect_fall_verdict_confidence (o : Oracle) (img : Img) :
    ((detect_fall o img).result = yesCodes ↔
      (detect_fall o img).no_votes < (detect_fall o img).yes_votes) ∧
    (detect_fall o img).confidence =
      round3 ((max (detect_fall o img).yes_votes (detect_fall o img).no_votes : ℚ) /
        ((detect_fall o img).total_crops : ℚ)) ∧
    ((max (detect_fall o img).yes_votes (detect_fall o img).no_votes : ℚ) /
        ((detect_fall o img).total_crops : ℚ) = 1 / 3 ∨
      (max (detect_fall o img).yes_votes (detect_fall o img).no_votes : ℚ) /
        ((detect_fall o img).total_crops : ℚ) = 2 / 3 ∨
      (max (detect_fall o img).yes_votes (detect_fall o img).no_votes : ℚ) /
        ((detect_fall o img).total_crops : ℚ) = 1) := by
  obtain ⟨hy, hn, ht, hr, hc⟩ := detect_fall_proj o img
  have hsum := detect_fall_votes_sum o img
  refine ⟨?_, ?_, ?_⟩
  · rw [hr, hy, hn]
    by_cases hlt : ((makeCrops img).foldl (voteStep o) (0, 0)).2 <
        ((makeCrops img).foldl (voteStep o) (0, 0)).1
    · rw [if_pos hlt]
      exact ⟨fun _ => hlt, fun _ => rfl⟩
    · rw [if_neg hlt]
      exact ⟨fun hh => absurd hh (by decide), fun hh => absurd hh hlt⟩
  · rw [hc, hy, hn, ht]
    norm_num
  · have hmax := max_votes_cases _ _ hsum
    rw [ht, ← Nat.cast_max]
    rcases hmax with hm | hm <;> rw [hm] <;> norm_num

/-- C2: for every raw answer text, normalization proceeds in this exact order
over the trimmed, lower-cased text: starting with "yes" is affirmative;
else starting with "no" is negative; else containing "yes" and not "no" is
affirmative; else containing "no" is negative; and any remaining
(indeterminate) answer is treated as non-affirmative, producing a Negative
vote for that crop both when it occurs in stage 1 and when it occurs in
stage 2. -/
theorem answer_normalization_order (raw : List Nat) :
    (startsWithTok yesTok (normText raw) = true →
      interpretAnswer raw = yesCodes) ∧
    (startsWithTok yesTok (normText raw) = false →
      startsWithTok noTok (normText raw) = true →
      interpretAnswer raw = noCodes) ∧
    (startsWithTok yesTok (normText raw) = false →
      startsWithTok noTok (normText raw) = false →
      containsTok yesTok (normText raw) = true →
      containsTok noTok (normText raw) = false →
      interpretAnswer raw = yesCodes) ∧
    (startsWithTok yesTok (normText raw) = false →
      startsWithTok noTok (normText raw) = false →
      containsTok noTok (normText raw) = true →
      interpretAnswer raw = noCodes) ∧
    (startsWithTok yesTok (normText raw) = false →
      startsWithTok noTok (normText raw) = false →
      containsTok yesTok (normText raw) = false →
      containsTok noTok (normText raw) = false →
      interpretAnswer raw ≠ yesCodes) ∧
    (∀ (o : Oracle) (img : Img),
      interpretAnswer (o img qPerson) ≠ yesCodes → cropVote o img = false) ∧
    (∀ (o : Oracle) (img : Img),
      interpretAnswer (o img qPerson) = yesCodes →
      interpretAnswer (o img qFall) ≠ yesCodes → cropVote o img = false) := by
  refine ⟨?_, ?_, ?_, ?_, ?_, ?_, ?_⟩
  · intro h1
    simp [interpretAnswer, h1]
  · intro h1 h2
    simp [interpretAnswer, h1, h2]
  · intro h1 h2 h3 h4
    simp [interpretAnswer, h1, h2, h3, h4]
  · intro h1 h2 hn
    simp [interpretAnswer, h1, h2, hn]
  · intro h1 h2 h3 h4
    have hfall := pyCapitalize_normText_ne_yes raw h1
    simp only [interpretAnswer, h1, h2, h3, h4]
    by_cases he : normText raw = [] <;> simp [he] <;> first
      | exact hfall
      | decide
  · intro o img hne
    rw [cropVote, if_neg hne]
  · intro o img hyes hne2
    rw [cropVote, if_pos hyes]
    exact decide_eq_false hne2

/-- C2 witness: the indeterminate answer "maybe" survives every check, is
not affirmative, and folds into a Negative vote when an oracle answers it in
stage 1. -/
theorem answer_normalization_order_witness :
    startsWithTok yesTok (normText [109, 97, 121, 98, 101]) = false ∧
    startsWithTok noTok (normText [109, 97, 121, 98, 101]) = false ∧
    containsTok yesTok (normText [109, 97, 121, 98, 101]) = false ∧
    containsTok noTok (normText [109, 97, 121, 98, 101]) = false ∧
    interpretAnswer [109, 97, 121, 98, 101] ≠ yesCodes ∧
    cropVote (fun _ _ => [109, 97, 121, 98, 101]) (Img.base 4 4) = false := by
  have h := answer_normalization_order [109, 97, 121, 98, 101]
  refine ⟨by decide, by decide, by decide, by decide, ?_, ?_⟩
  · exact h.2.2.2.2.1 (by decide) (by decide) (by decide) (by decide)
  · exact h.2.2.2.2.2.1 (fun _ _ => [109, 97, 121, 98, 101]) (Img.base 4 4)
      (h.2.2.2.2.1 (by decide) (by decide) (by decide) (by decide))

/-- C3: for every input image of size `(w, h)` the classifier derives exactly
three crops, in this order: the original image; the largest centered square,
of side `min w h`; and a centered square of side `⌊0.8 * min w h⌋`, centered
within the image.  The geometry is a function of `(w, h)` alone, with no
randomness. -/
theorem make_crops_geometry (img : Img) (w h : Nat) (hsz : img.size = (w, h)) :
    makeCrops img = [img,
      Img.cropped img ((w - min w h) / 2) ((h - min w h) / 2)
        ((w - min w h) / 2 + min w h) ((h - min w h) / 2 + min w h),
      Img.cropped img ((w - 4 * min w h / 5) / 2) ((h - 4 * min w h / 5) / 2)
        ((w - 4 * min w h / 5) / 2 + 4 * min w h / 5)
        ((h - 4 * min w h / 5) / 2 + 4 * min w h / 5)] ∧
    (makeCrops img).length = 3 ∧
    (Img.cropped img ((w - min w h) / 2) ((h - min w h) / 2)
        ((w - min w h) / 2 + min w h) ((h - min w h) / 2 + min w h)).size =
      (min w h, min w h) ∧
    (Img.cropped img ((w - 4 * min w h / 5) / 2) ((h - 4 * min w h / 5) / 2)
        ((w - 4 * min w h / 5) / 2 + 4 * min w h / 5)
        ((h - 4 * min w h / 5) / 2 + 4 * min w h / 5)).size =
      (4 * min w h / 5, 4 * min w h / 5) := by
  refine ⟨?_, makeCrops_length img, ?_, ?_⟩
  · simp [makeCrops, hsz]
  · simp [Img.size]
  · simp [Img.size]

/-- C3 witness: the crops of a 640-by-480 image. -/
theorem make_crops_geometry_witness :
    (Img.base 640 480).size = (640, 480) ∧
    makeCrops (Img.base 640 480) = [Img.base 640 480,
      Img.cropped (Img.base 640 480) 80 0 560 480,
      Img.cropped (Img.base 640 480) 128 48 512 432] :=
  ⟨rfl, ((make_crops_geometry (Img.base 640 480) 640 480 rfl).1).trans (by decide)⟩

/-- C10: every completed classification call tallies exactly one vote per
crop over exactly three crops, so `yes_votes + no_votes = 3`, the winning
count is at least `2`, and the reported confidence is `0.667` or `1.0`;
the value `round3 (1/3) = 0.333` can never occur. -/
theorem detect_fall_tally_invariant (o : Oracle) (img : Img) :
    (detect_fall o img).total_crops = 3 ∧
    (detect_fall o img).yes_votes + (detect_fall o img).no_votes = 3 ∧
    2 ≤ max (detect_fall o img).yes_votes (detect_fall o img).no_votes ∧
    ((detect_fall o img).confidence = 667 / 1000 ∨
      (detect_fall o img).confidence = 1) ∧
    (detect_fall o img).confidence ≠ round3 (1 / 3) := by
  obtain ⟨hy, hn, ht, -, hc⟩ := detect_fall_proj o img
  have hsum := detect_fall_votes_sum o img
  have hmax := max_votes_cases _ _ hsum
  have hconf : (detect_fall o img).confidence = 667 / 1000 ∨
      (detect_fall o img).confidence = 1 := by
    rw [hc, ← hy, ← hn, ← Nat.cast_max]
    rcases hmax with hm | hm <;> rw [hm]
    · left
      rw [show ((2 : Nat) : ℚ) / 3 = 2 / 3 by norm_num, round3_two_thirds]
    · right
      rw [show ((3 : Nat) : ℚ) / 3 = 1 by norm_num, round3_one]
  refine ⟨ht, hsum, ?_, hconf, ?_⟩
  · omega
  · rw [round3_one_third]
    rcases hconf with hcf | hcf <;> rw [hcf] <;> norm_num

/-- On a fresh miss with storage up, the orchestrator appends the new entry
to the store. -/
theorem detect_fall_single_fresh_up (d : DecodeFn) (o : Oracle) (s : SysState)
    (req : Request) (wh : Nat × Nat) (hready : s.ready = true)
    (hct : req.contentTypeIsImage = true)
    (hmiss : lookupStore s.store (calculate_image_hash req.bytes) = none)
    (hdec : d req.bytes = some wh) (hdb : s.dbUp = true) :
    detect_fall_single d o s req =
      (Response.ok (calculate_image_hash req.bytes)
        (detect_fall o (Img.base wh.1 wh.2)).result
        (detect_fall o (Img.base wh.1 wh.2)).confidence
        (sizeString wh.1 wh.2) 0 false,
       { s with
         classifierCalls := s.classifierCalls + 1,
         store := s.store ++ [(calculate_image_hash req.bytes,
           { image_hash := calculate_image_hash req.bytes,
             result := (detect_fall o (Img.base wh.1 wh.2)).result,
             confidence := (detect_fall o (Img.base wh.1 wh.2)).confidence,
             image_size := sizeString wh.1 wh.2,
             processing_time_ms := 0 })] }) := by
  rw [detect_fall_single_fresh d o s req wh hready hct hmiss hdec, hdb,
    save_result_absent s.store _ _ hmiss]

/-- C4: after one successful fresh classification of a request has stored its
entry (model ready, storage up), resubmitting the same request returns the
stored entry immediately with the cached flag set true and leaves the state —
in particular the classifier invocation count — unchanged: the ensemble
classifier and the gate are not invoked on the cache hit. -/
theorem cache_round_trip (d : DecodeFn) (o : Oracle) (s : SysState)
    (req : Request) (hsh : String) (res : List Nat) (conf : ℚ) (sz : String)
    (tm : Nat) (s' : SysState) (hdb : s.dbUp = true)
    (h1 : detect_fall_single d o s req =
      (Response.ok hsh res conf sz tm false, s')) :
    detect_fall_single d o s' req =
      (Response.ok hsh res conf sz tm true, s') := by
  cases hready : s.ready with
  | false =>
    rw [detect_fall_single_not_ready d o s req hready] at h1
    exact absurd h1 (by simp)
  | true =>
    cases hct : req.contentTypeIsImage with
    | false =>
      rw [detect_fall_single_bad_type d o s req hready hct] at h1
      exact absurd h1 (by simp)
    | true =>
      cases hlk : lookupStore s.store (calculate_image_hash req.bytes) with
      | some e =>
        rw [detect_fall_single_hit d o s req e hready hct hlk] at h1
        exact absurd h1 (by simp)
      | none =>
        cases hdec : d req.bytes with
        | none =>
          rw [detect_fall_single_err d o s req hready hct hlk hdec] at h1
          exact absurd h1 (by simp)
        | some wh =>
          rw [detect_fall_single_fresh_up d o s req wh hready hct hlk hdec
            hdb] at h1
          rw [Prod.mk.injEq, Response.ok.injEq] at h1
          obtain ⟨⟨e1, e2, e3, e4, e5, -⟩, hs'⟩ := h1
          subst hs'
          rw [detect_fall_single_hit d o
            { s with
              classifierCalls := s.classifierCalls + 1,
              store := s.store ++ [(calculate_image_hash req.bytes,
                { image_hash := calculate_image_hash req.bytes,
                  result := (detect_fall o (Img.base wh.1 wh.2)).result,
                  confidence := (detect_fall o (Img.base wh.1 wh.2)).confidence,
                  image_size := sizeString wh.1 wh.2,
                  processing_time_ms := 0 })] }
            req
            { image_hash := calculate_image_hash req.bytes,
              result := (detect_fall o (Img.base wh.1 wh.2)).result,
              confidence := (detect_fall o (Img.base wh.1 wh.2)).confidence,
              image_size := sizeString wh.1 wh.2,
              processing_time_ms := 0 }
            hready hct (lookupStore_append_self s.store _ _ hlk)]
          rw [← e1, ← e2, ← e3, ← e4, ← e5]

/-- C4 witness: classifying the empty payload in a fresh state stores its
entry; resubmitting it returns the stored entry with the cached flag and the
same state. -/
theorem cache_round_trip_witness :
    freshState.dbUp = true ∧
    detect_fall_single demoDecode demoOracle freshState emptyImageReq =
      (Response.ok (calculate_image_hash emptyImageReq.bytes)
        (detect_fall demoOracle (Img.base 5 5)).result
        (detect_fall demoOracle (Img.base 5 5)).confidence
        (sizeString 5 5) 0 false, demoState1) ∧
    detect_fall_single demoDecode demoOracle demoState1 emptyImageReq =
      (Response.ok (calculate_image_hash emptyImageReq.bytes)
        (detect_fall demoOracle (Img.base 5 5)).result
        (detect_fall demoOracle (Img.base 5 5)).confidence
        (sizeString 5 5) 0 true, demoState1) := by
  have h1 : detect_fall_single demoDecode demoOracle freshState emptyImageReq =
      (Response.ok (calculate_image_hash emptyImageReq.bytes)
        (detect_fall demoOracle (Img.base 5 5)).result
        (detect_fall demoOracle (Img.base 5 5)).confidence
        (sizeString 5 5) 0 false, demoState1) := by
    rw [detect_fall_single_fresh_up demoDecode demoOracle freshState
      emptyImageReq (5, 5) rfl rfl rfl rfl rfl]
    rfl
  exact ⟨rfl, h1, cache_round_trip demoDecode demoOracle freshState
    emptyImageReq (calculate_image_hash emptyImageReq.bytes)
    (detect_fall demoOracle (Img.base 5 5)).result
    (detect_fall demoOracle (Img.base 5 5)).confidence
    (sizeString 5 5) 0 demoState1 rfl h1⟩

/-- C6 (amended): `detect_fall_single` answers ResourceNotReady exactly when
the model service is not ready — the readiness check precedes the cache
lookup, so even a request whose fingerprint is already stored receives
ResourceNotReady while the service is warming up; when it is ready, no path
produces that answer. -/
theorem resource_not_ready_iff (d : DecodeFn) (o : Oracle) (s : SysState)
    (req : Request) :
    (detect_fall_single d o s req).1 = Response.resourceNotReady ↔
      s.ready = false := by
  cases hready : s.ready with
  | false =>
    rw [detect_fall_single_not_ready d o s req hready]
    simp
  | true =>
    cases hct : req.contentTypeIsImage with
    | false =>
      rw [detect_fall_single_bad_type d o s req hready hct]
      simp
    | true =>
      cases hlk : lookupStore s.store (calculate_image_hash req.bytes) with
      | some e =>
        rw [detect_fall_single_hit d o s req e hready hct hlk]
        simp
      | none =>
        cases hdec : d req.bytes with
        | none =>
          rw [detect_fall_single_err d o s req hready hct hlk hdec]
          simp
        | some wh =>
          rw [detect_fall_single_fresh d o s req wh hready hct hlk hdec]
          simp

/-- C6 counterexample: with the model still loading and the fingerprint of
the request already cached, the endpoint answers ResourceNotReady instead of
serving the stored entry — the readiness check is not restricted to cache
misses. -/
theorem resource_not_ready_counterexample :
    (lookupStore c6State.store
      (calculate_image_hash emptyImageReq.bytes)).isSome = true ∧
    detect_fall_single demoDecode demoOracle c6State emptyImageReq =
      (Response.resourceNotReady, c6State) := by
  exact ⟨by decide, by decide⟩

/-- C7 (amended): `detect_fall_single` answers InvalidInput exactly for ready
requests whose declared content type is not an image type; the byte payload
itself is not validated — an image-typed payload is fingerprinted and looked
up in the cache first, so with undecodable bytes it fails later with a
processing error (HTTP 500) on a miss, and is even served from the cache on a
hit. -/
theorem invalid_input_characterization (d : DecodeFn) (o : Oracle)
    (s : SysState) (req : Request) :
    ((detect_fall_single d o s req).1 = Response.invalidInput ↔
      s.ready = true ∧ req.contentTypeIsImage = false) ∧
    (s.ready = true → req.contentTypeIsImage = true →
      lookupStore s.store (calculate_image_hash req.bytes) = none →
      d req.bytes = none →
      (detect_fall_single d o s req).1 = Response.processingError) ∧
    (∀ e : Entry, s.ready = true → req.contentTypeIsImage = true →
      lookupStore s.store (calculate_image_hash req.bytes) = some e →
      (detect_fall_single d o s req).1 =
        Response.ok e.image_hash e.result e.confidence e.image_size
          e.processing_time_ms true) := by
  refine ⟨?_, ?_, ?_⟩
  · cases hready : s.ready with
    | false =>
      rw [detect_fall_single_not_ready d o s req hready]
      simp
    | true =>
      cases hct : req.contentTypeIsImage with
      | false =>
        rw [detect_fall_single_bad_type d o s req hready hct]
        simp
      | true =>
        cases hlk : lookupStore s.store (calculate_image_hash req.bytes) with
        | some e =>
          rw [detect_fall_single_hit d o s req e hready hct hlk]
          simp
        | none =>
          cases hdec : d req.bytes with
          | none =>
            rw [detect_fall_single_err d o s req hready hct hlk hdec]
            simp
          | some wh =>
            rw [detect_fall_single_fresh d o s req wh hready hct hlk hdec]
            simp
  · intro hready hct hmiss hdec
    rw [detect_fall_single_err d o s req hready hct hmiss hdec]
  · intro e hready hct hhit
    rw [detect_fall_single_hit d o s req e hready hct hhit]

/-- C7 counterexample: malformed non-image bytes submitted under an image
content type are not rejected with InvalidInput — the endpoint fingerprints
them, misses the cache, fails to decode, and answers with a processing
error. -/
theorem invalid_input_counterexample :
    (detect_fall_single noneDecode demoOracle freshState badBytesReq).1 =
      Response.processingError ∧
    (detect_fall_single noneDecode demoOracle freshState badBytesReq).1 ≠
      Response.invalidInput := by
  exact ⟨by decide, by decide⟩

/-- C7 witness: the amended characterization at a concrete undecodable
payload. -/
theorem invalid_input_characterization_witness :
    freshState.ready = true ∧ badBytesReq.contentTypeIsImage = true ∧
    lookupStore freshState.store (calculate_image_hash badBytesReq.bytes) =
      none ∧
    noneDecode badBytesReq.bytes = none ∧
    (detect_fall_single noneDecode demoOracle freshState badBytesReq).1 =
      Response.processingError :=
  ⟨rfl, rfl, rfl, rfl,
    (invalid_input_characterization noneDecode demoOracle freshState
      badBytesReq).2.1 rfl rfl rfl rfl⟩

/-- C8: when the storage insert fails after a successful classification, the
failure is recorded as the insert's `false` return value, is never raised to
the requester, and never alters the computed result: the caller still
receives the fresh verdict, confidence and metadata with the cached flag
false, and the response equals the one produced with healthy storage. -/
theorem insert_failure_preserves_response (d : DecodeFn) (o : Oracle)
    (s : SysState) (req : Request) (wh : Nat × Nat)
    (hready : s.ready = true) (hct : req.contentTypeIsImage = true)
    (hmiss : lookupStore s.store (calculate_image_hash req.bytes) = none)
    (hdec : d req.bytes = some wh) (hdb : s.dbUp = false) :
    (save_result s.dbUp s.store (calculate_image_hash req.bytes)
      { image_hash := calculate_image_hash req.bytes,
        result := (detect_fall o (Img.base wh.1 wh.2)).result,
        confidence := (detect_fall o (Img.base wh.1 wh.2)).confidence,
        image_size := sizeString wh.1 wh.2,
        processing_time_ms := 0 }).1 = false ∧
    detect_fall_single d o s req =
      (Response.ok (calculate_image_hash req.bytes)
        (detect_fall o (Img.base wh.1 wh.2)).result
        (detect_fall o (Img.base wh.1 wh.2)).confidence
        (sizeString wh.1 wh.2) 0 false,
       { s with classifierCalls := s.classifierCalls + 1 }) ∧
    (detect_fall_single d o s req).1 =
      (detect_fall_single d o { s with dbUp := true } req).1 := by
  refine ⟨?_, ?_, ?_⟩
  · rw [hdb, save_result_down]
  · rw [detect_fall_single_fresh d o s req wh hready hct hmiss hdec]
    rw [hdb, save_result_down]
  · rw [detect_fall_single_fresh d o s req wh hready hct hmiss hdec,
      detect_fall_single_fresh d o { s with dbUp := true } req wh hready hct
        hmiss hdec]

/-- C8 witness: with storage down, classifying the empty payload still
returns the fresh Negative verdict uncached, identical to the healthy-storage
response, while the insert reports failure. -/
theorem insert_failure_preserves_response_witness :
    dbDownState.ready = true ∧ emptyImageReq.contentTypeIsImage = true ∧
    lookupStore dbDownState.store
      (calculate_image_hash emptyImageReq.bytes) = none ∧
    demoDecode emptyImageReq.bytes = some (5, 5) ∧ dbDownState.dbUp = false ∧
    ((save_result dbDownState.dbUp dbDownState.store
      (calculate_image_hash emptyImageReq.bytes)
      { image_hash := calculate_image_hash emptyImageReq.bytes,
        result := (detect_fall demoOracle (Img.base 5 5)).result,
        confidence := (detect_fall demoOracle (Img.base 5 5)).confidence,
        image_size := sizeString 5 5,
        processing_time_ms := 0 }).1 = false ∧
    detect_fall_single demoDecode demoOracle dbDownState emptyImageReq =
      (Response.ok (calculate_image_hash emptyImageReq.bytes)
        (detect_fall demoOracle (Img.base 5 5)).result
        (detect_fall demoOracle (Img.base 5 5)).confidence
        (sizeString 5 5) 0 false,
       { dbDownState with
          classifierCalls := dbDownState.classifierCalls + 1 }) ∧
    (detect_fall_single demoDecode demoOracle dbDownState emptyImageReq).1 =
      (detect_fall_single demoDecode demoOracle
        { dbDownState with dbUp := true } emptyImageReq).1) :=
  ⟨rfl, rfl, rfl, rfl, rfl,
    insert_failure_preserves_response demoDecode demoOracle dbDownState
      emptyImageReq (5, 5) rfl rfl rfl rfl rfl⟩

/-- C5 counterexample: with a row for the fingerprint `"f"` already stored,
the code's insert stores nothing yet still returns `true`, while the claimed
contract — return whether this call created the entry — requires `false`
here, as the spec-modelled insert shows. -/
theorem insert_reports_creation_counterexample :
    (lookupStore demoStore "f").isSome = true ∧
    save_result true demoStore "f" plainEntry2 = (true, demoStore) ∧
    (save_result_spec demoStore "f" plainEntry2).1 = false := by
  exact ⟨by decide, by decide, by decide⟩

/-- C5 (amended): with storage up, `insert(fingerprint, entry)` is an atomic
insert-if-absent: under an absent fingerprint it appends the row, under a
present one it leaves the store unchanged; it raises no error and returns
`true` in both cases (the boolean reports that the storage operation
completed, not that this call created the entry); under a unique-key store
exactly one row for the fingerprint survives and key-uniqueness is
preserved. -/
theorem save_result_insert_if_absent (store : Store) (hsh : String)
    (e : Entry) (huniq : ∀ k, countKey store k ≤ 1) :
    (save_result true store hsh e).1 = true ∧
    ((lookupStore store hsh).isSome →
      (save_result true store hsh e).2 = store) ∧
    (lookupStore store hsh = none →
      (save_result true store hsh e).2 = store ++ [(hsh, e)]) ∧
    countKey (save_result true store hsh e).2 hsh = 1 ∧
    (∀ k, countKey (save_result true store hsh e).2 k ≤ 1) := by
  cases hlk : lookupStore store hsh with
  | some e0 =>
    rw [save_result_present store hsh e0 e hlk]
    have hpos : countKey store hsh ≠ 0 := by
      intro h0
      have hn := (lookupStore_none_iff store hsh).mpr h0
      rw [hlk] at hn
      cases hn
    have h1 : countKey store hsh = 1 := by
      have := huniq hsh
      omega
    refine ⟨rfl, fun _ => rfl, fun hno => ?_, h1, huniq⟩
    cases hno
  | none =>
    rw [save_result_absent store hsh e hlk]
    have h0 : countKey store hsh = 0 := (lookupStore_none_iff store hsh).mp hlk
    refine ⟨rfl, fun hs => ?_, fun _ => rfl, ?_, ?_⟩
    · simp at hs
    · rw [countKey_append, h0, countKey_singleton]
      simp
    · intro k
      rw [countKey_append, countKey_singleton]
      by_cases hk : hsh = k
      · rw [if_pos hk, ← hk, h0]
      · rw [if_neg hk]
        simpa using huniq k

/-- C5 witness: inserting a new fingerprint `"g"` into the demonstration
store appends exactly one surviving row and reports success. -/
theorem save_result_insert_if_absent_witness :
    (∀ k, countKey demoStore k ≤ 1) ∧
    (save_result true demoStore "g" plainEntry2).1 = true ∧
    (save_result true demoStore "g" plainEntry2).2 =
      demoStore ++ [("g", plainEntry2)] ∧
    countKey (save_result true demoStore "g" plainEntry2).2 "g" = 1 := by
  have huniq : ∀ k, countKey demoStore k ≤ 1 := by
    intro k
    rw [countKey]
    exact le_trans (List.length_filter_le _ _) (by simp [demoStore])
  have h := save_result_insert_if_absent demoStore "g" plainEntry2 huniq
  exact ⟨huniq, h.1, h.2.2.1 rfl, h.2.2.2.1⟩

/-- C9 counterexample: the code's fingerprint hashes the empty byte sequence
successfully to the standard SHA-256 empty-message digest instead of failing
with InvalidInput, contrary to the claimed contract captured by
`fingerprintSpec`. -/
theorem fingerprint_empty_counterexample :
    fingerprintSpec [] = none ∧
    calculate_image_hash [] =
      "e3b0c44298fc1c149afbf4c8996fb92427ae41e4649b934ca495991b7852b855" := by
  exact ⟨by decide, by decide⟩

/-- C9 (amended): fingerprint is a pure, deterministic, total function of the
raw input bytes — repeated calls on the same bytes agree — and it never
fails: every byte sequence, the empty one included, yields a 64-character
hexadecimal digest. -/
theorem fingerprint_deterministic_total (b : List Nat) :
    calculate_image_hash b = calculate_image_hash b ∧
    (calculate_image_hash b).length = 64 := by
  refine ⟨rfl, ?_⟩
  simp only [calculate_image_hash]
  simp [length_mk, List.length_append, toHex8_length]

end FallDetection
